import Mathlib

/-!
Verification of the draftdeploy deployment orchestrator.

This file gives a shallow embedding of the deployment pipeline of the
draftdeploy repository: environment naming (cmd/draftdeploy/main.go),
the compose-project accessors (internal/compose/parser.go), the
Azure Container Apps translator and retry policy
(internal/azure/deployer.go), and the deploy orchestration with its
deferred rollback (cmd/draftdeploy/main.go, function deploy).
Remote Azure calls are modelled by oracles supplied as parameters;
everything the program computes locally is translated directly.
-/

namespace DraftDeploy

/-! ## String utilities (Go strings and regexp operations over Char lists) -/

/-- Models Go strings.HasPrefix on rune lists: hay begins with needle. -/
def leadsWith : List Char → List Char → Bool
  | _, [] => true
  | [], _ :: _ => false
  | a :: as, b :: bs => a == b && leadsWith as bs

/-- Models Go strings.Contains on rune lists: needle occurs inside hay. -/
def containsSeq : List Char → List Char → Bool
  | [], needle => needle.isEmpty
  | a :: t, needle => leadsWith (a :: t) needle || containsSeq t needle

/-- Character class of the regexp [a-z0-9-] used by sanitizeDNSLabel. -/
def dnsAllowedChar (c : Char) : Bool :=
  (decide ('a' ≤ c) && decide (c ≤ 'z')) ||
  (decide ('0' ≤ c) && decide (c ≤ '9')) ||
  (c == '-')

/-- Models the regexp replacement ReplaceAllString with pattern [^a-z0-9-]
and replacement "-": every character outside the class becomes a dash. -/
def sanitizeDNSChars (s : String) : String :=
  String.mk (s.data.map (fun c => if dnsAllowedChar c then c else '-'))

/-- Models Go strings.ToLower restricted to ASCII: the Lean Char.toLower maps
A-Z to a-z and leaves other characters unchanged. Non-ASCII characters whose
Go lowercase differs are all replaced by a dash in the next step anyway. -/
def asciiLower (s : String) : String :=
  String.mk (s.data.map Char.toLower)

/-- Drops leading dashes from a rune list. -/
def trimDashLeft : List Char → List Char
  | [] => []
  | c :: t => if c == '-' then trimDashLeft t else c :: t

/-- Models Go strings.Trim(s, "-"): removes leading and trailing dashes. -/
def trimDash (s : String) : String :=
  String.mk (List.reverse (trimDashLeft (List.reverse (trimDashLeft s.data))))

/-! ## Environment naming (cmd/draftdeploy/main.go, sanitizeDNSLabel) -/

/-- Translation of sanitizeDNSLabel from cmd/draftdeploy/main.go: lowercase
owner and repo, replace characters outside [a-z0-9-] with dashes, build
"dd-<owner>-<repo>-pr<N>", trim dashes at both ends, reject labels shorter
than 3 characters, and fall back to "dd-pr<N>" above 63 characters. -/
def sanitizeDNSLabel (owner repo : String) (prNumber : Nat) : Except String String :=
  let cleanOwner := sanitizeDNSChars (asciiLower owner)
  let cleanRepo := sanitizeDNSChars (asciiLower repo)
  let label := trimDash ("dd-" ++ cleanOwner ++ "-" ++ cleanRepo ++ "-pr" ++ toString prNumber)
  if label.length < 3 then
    Except.error ("DNS label too short: " ++ toString label.length ++ " chars (min 3)")
  else if label.length > 63 then
    Except.ok ("dd-pr" ++ toString prNumber)
  else
    Except.ok label

/-! ## Compose project accessors (internal/compose/parser.go) -/

/-- Port mapping entry of a compose service: the published host port string
(empty when not published) and the container target port. -/
structure PortMapping where
  published : String
  target : Nat
deriving DecidableEq, Repr

/-- Declared compose service: image reference (empty string for build-only
services) and port mappings. -/
structure ComposeService where
  image : String
  ports : List PortMapping
deriving DecidableEq, Repr

/-- Compose project: the services map, modelled as an association list with
distinct names (Go map iteration order is irrelevant because GetServiceNames
sorts the keys). -/
abbrev Project : Type := List (String × ComposeService)

/-- Translation of Project.GetServiceNames from internal/compose/parser.go:
collects the service names and sorts them (sort.Strings). -/
def GetServiceNames (p : Project) : List String :=
  List.insertionSort (fun a b => a ≤ b) (p.map Prod.fst)

/-- Translation of Project.GetServiceImage: the image of the named service,
or the empty string when the service is absent. -/
def GetServiceImage (p : Project) (name : String) : String :=
  match List.lookup name p with
  | some s => s.image
  | none => ""

/-- Translation of Project.GetExposedPorts: the target ports of the named
service whose mapping has a nonempty published part and a target in 1..65535. -/
def GetExposedPorts (p : Project) (name : String) : List Nat :=
  match List.lookup name p with
  | none => []
  | some s =>
    (s.ports.filter
      (fun pm => pm.published != "" && decide (1 ≤ pm.target) && decide (pm.target ≤ 65535))).map
      (fun pm => pm.target)

/-! ## Deployment translator (internal/azure/deployer.go) -/

/-- Default CPU cores (constant DefaultCPU, 0.5). -/
def DefaultCPU : ℚ := 1 / 2

/-- Default memory in GB (constant DefaultMemoryGB, 0.5). -/
def DefaultMemoryGB : ℚ := 1 / 2

/-- Translation of ContainerConfig from internal/azure/deployer.go. -/
structure ContainerConfig where
  name : String
  image : String
  ports : List Nat
  environment : List (String × String) := []
  cpu : ℚ := 0
  memoryGB : ℚ := 0
deriving DecidableEq, Repr

/-- Translation of DeployConfig from internal/azure/deployer.go. -/
structure DeployConfig where
  resourceGroup : String := ""
  name : String := ""
  environmentName : String := ""
  location : String := ""
  containers : List ContainerConfig := []
deriving DecidableEq, Repr

/-- Environment variable entry emitted by the translator (EnvironmentVar). -/
structure EnvironmentVar where
  name : String
  value : String
deriving DecidableEq, Repr

/-- Ingress block of the container app (always external, transport Auto). -/
structure Ingress where
  external : Bool
  targetPort : Nat
  transport : String
deriving DecidableEq, Repr

/-- Scale block of the container app template. -/
structure Scale where
  minReplicas : Nat
  maxReplicas : Nat
deriving DecidableEq, Repr

/-- Container description inside the container app template. -/
structure Container where
  name : String
  image : String
  env : List EnvironmentVar
  cpu : ℚ
  memoryGB : ℚ
deriving DecidableEq, Repr

/-- Container app resource produced by buildContainerApp. The ingress is an
optional field (a pointer in the provider SDK) so that its presence is
observable. -/
structure ContainerApp where
  location : String
  managedEnvironmentID : String
  ingress : Option Ingress
  containers : List Container
  scale : Scale
deriving DecidableEq, Repr

/-- Translation of buildEnvVars from internal/azure/deployer.go: nil for an
empty mapping, otherwise the entries in sorted key order. The Go map is
modelled as an association list; key extraction plus sort.Strings becomes
insertion sort of the keys, and env[k] becomes the association lookup. -/
def buildEnvVars (env : List (String × String)) : List EnvironmentVar :=
  if env.length == 0 then []
  else
    (List.insertionSort (fun a b => a ≤ b) (env.map Prod.fst)).map
      (fun k => { name := k, value := (List.lookup k env).getD "" })

/-- Ingress target selection loop of buildContainerApp: starts at 80 and
takes the first port of the first container whose port list is nonempty. -/
def ingressTargetPort : List ContainerConfig → Nat
  | [] => 80
  | c :: rest =>
    match c.ports with
    | [] => ingressTargetPort rest
    | p :: _ => p

/-- Translation of buildContainerApp from internal/azure/deployer.go:
containers with env vars, CPU and memory defaulted when zero, an external
ingress at the selected target port, and a 0..1 replica scale. -/
def buildContainerApp (config : DeployConfig) (envID : String) : ContainerApp :=
  { location := config.location
    managedEnvironmentID := envID
    ingress := some
      { external := true
        targetPort := ingressTargetPort config.containers
        transport := "Auto" }
    containers := config.containers.map (fun c =>
      { name := c.name
        image := c.image
        env := buildEnvVars c.environment
        cpu := if c.cpu = (0 : ℚ) then DefaultCPU else c.cpu
        memoryGB := if c.memoryGB = (0 : ℚ) then DefaultMemoryGB else c.memoryGB })
    scale := { minReplicas := 0, maxReplicas := 1 } }

/-! ## Retry policy (internal/azure/deployer.go) -/

/-- Constant maxRetryTime from internal/azure/deployer.go, in seconds:
10 minutes, with the source comment that ACA environment creation can take
5+ minutes. -/
def maxRetryTime : Nat := 600

/-- Call sites of retryWithBackoff in the repository: resource-group
creation, managed-environment creation, container-app creation, container-app
deletion, and resource-group deletion. -/
inductive RetrySite
  | ensureResourceGroup
  | ensureEnvironment
  | createContainerApp
  | deleteContainerApp
  | deleteResourceGroup
deriving DecidableEq, Repr

/-- Cumulative backoff budget used at each call site. Every call of
retryWithBackoff sets MaxElapsedTime to the single constant maxRetryTime. -/
def retryBudget : RetrySite → Nat := fun _ => maxRetryTime

/-- Error codes treated as permanent by isPermanentError. -/
def permanentErrorCodes : List String :=
  ["InvalidParameter", "InvalidResourceGroup", "AuthorizationFailed", "InvalidSubscriptionId"]

/-- Translation of isPermanentError from internal/azure/deployer.go: the
error text contains one of the denylisted codes. -/
def isPermanentError (e : String) : Bool :=
  permanentErrorCodes.any (fun c => containsSeq e.data c.data)

/-- Outcome of one invocation of a retryable remote operation. -/
inductive OpResult
  | ok
  | fail (msg : String)
deriving DecidableEq, Repr

/-- Model of backoff.Retry composed with the call-site error classification
(each operation wraps its error in backoff.Permanent exactly when
isPermanentError holds). Each list entry carries the outcome of one attempt
together with the elapsed time at which the backoff policy decides whether
to schedule another attempt; NextBackOff returns Stop once the elapsed time
exceeds MaxElapsedTime, and then the last error is returned. -/
def retryModel (budget : Nat) : List (OpResult × Nat) → Option String
  | [] => none
  | (OpResult.ok, _) :: _ => none
  | (OpResult.fail m, t) :: rest =>
    if isPermanentError m then some m
    else if budget < t then some m
    else retryModel budget rest

/-! ## Orchestration (cmd/draftdeploy/main.go) -/

/-- Process-level deploy timeout, in seconds (deployTimeout, 15 minutes). -/
def deployTimeout : Nat := 900

/-- Process-level teardown timeout, in seconds (teardownTimeout, 5 minutes). -/
def teardownTimeout : Nat := 300

/-- Cleanup budget of the deferred rollback in deploy, in seconds
(context.WithTimeout(context.Background(), 2*time.Minute)). -/
def cleanupTimeout : Nat := 120

/-- Go context, modelled by the remaining time before its deadline
(none when the context has no deadline). -/
structure Ctx where
  timeLeft : Option Nat
deriving DecidableEq, Repr

/-- Models context.Background(): no deadline. -/
def Ctx.background : Ctx := { timeLeft := none }

/-- Models context.WithTimeout(parent, d): the child deadline is the sooner
of the parent deadline and d. -/
def Ctx.withTimeout (c : Ctx) (d : Nat) : Ctx :=
  { timeLeft := some (match c.timeLeft with
      | none => d
      | some p => min p d) }

/-- Translation of parseComposeServices from cmd/draftdeploy/main.go:
walks the sorted service names, skips services whose image is empty
(build-only services), and builds a ContainerConfig with default CPU and
memory for each remaining service. The parallel github.ServiceInfo list
mirrors the container list and is omitted here. -/
def parseComposeServices (p : Project) : List ContainerConfig :=
  (GetServiceNames p).filterMap (fun name =>
    let image := GetServiceImage p name
    if image = "" then none
    else some
      { name := name
        image := image
        ports := GetExposedPorts p name
        cpu := DefaultCPU
        memoryGB := DefaultMemoryGB })

/-- Outcome of the remote call deployer.Deploy, supplied as an oracle:
either the FQDN of the deployed app or an error. -/
inductive DeployOutcome
  | ok (fqdn : String)
  | err (e : String)
deriving DecidableEq, Repr

/-- Observable result of one run of the deploy function: the error returned
to the caller (none on success), whether deployer.Deploy was invoked (the
first cloud call, resource-group creation, happens inside it), whether the
deferred rollback deletion ran, the context the rollback used, and the log
lines emitted on the rollback path. -/
structure DeployRun where
  result : Option String
  deployerInvoked : Bool
  rollbackAttempted : Bool
  rollbackCtx : Option Ctx
  logs : List String
deriving DecidableEq, Repr

/-- Translation of the deploy function from cmd/draftdeploy/main.go over
oracles for the remote calls: parse the compose services, fail fast when no
deployable service remains, fail when credential or deployer construction
fails, then run deployer.Deploy under the given context with a deferred
best-effort resource-group deletion keyed on the success flag. The rollback
runs under a fresh two-minute context derived from context.Background, its
failure is only logged, and the deferred function does not change the
returned error. -/
def deployModel (ctx : Ctx) (p : Project) (credErr deployerErr : Option String)
    (deployOp : Ctx → DeployOutcome) (cleanupErr : Option String) : DeployRun :=
  let containers := parseComposeServices p
  if containers.length == 0 then
    { result := some "no deployable services found (all have build configs)"
      deployerInvoked := false
      rollbackAttempted := false
      rollbackCtx := none
      logs := [] }
  else
    match credErr with
    | some ce =>
      { result := some ("failed to create Azure credential: " ++ ce)
        deployerInvoked := false
        rollbackAttempted := false
        rollbackCtx := none
        logs := [] }
    | none =>
      match deployerErr with
      | some de =>
        { result := some ("failed to create deployer: " ++ de)
          deployerInvoked := false
          rollbackAttempted := false
          rollbackCtx := none
          logs := [] }
      | none =>
        match deployOp ctx with
        | DeployOutcome.err e =>
          { result := some ("failed to deploy: " ++ e)
            deployerInvoked := true
            rollbackAttempted := true
            rollbackCtx := some (Ctx.background.withTimeout cleanupTimeout)
            logs := ["deployment failed, attempting cleanup"] ++
              (match cleanupErr with
               | some ce => ["failed to cleanup resource group: " ++ ce]
               | none => []) }
        | DeployOutcome.ok _ =>
          { result := none
            deployerInvoked := true
            rollbackAttempted := false
            rollbackCtx := none
            logs := [] }

/-! ## Helper lemmas -/

/-- Names of the parsed containers are the declared names, in sorted order,
restricted to services with a nonempty image. -/
theorem parse_names_eq (p : Project) :
    (parseComposeServices p).map (fun c => c.name) =
      (GetServiceNames p).filter (fun n => GetServiceImage p n != "") := by
  unfold parseComposeServices
  generalize GetServiceNames p = l
  induction l with
  | nil => rfl
  | cons a t ih =>
    by_cases h : GetServiceImage p a = ""
    · simp [List.filterMap_cons, List.filter_cons, h, ih]
    · simp [List.filterMap_cons, List.filter_cons, h, ih]

/-- Containers with empty port lists do not affect ingress port selection. -/
theorem ingressTargetPort_append (pre rest : List ContainerConfig)
    (h : ∀ x ∈ pre, x.ports = []) :
    ingressTargetPort (pre ++ rest) = ingressTargetPort rest := by
  induction pre with
  | nil => rfl
  | cons a as ih =>
    have ha : a.ports = [] := h a (List.mem_cons_self a as)
    rw [List.cons_append]
    rw [show ingressTargetPort (a :: (as ++ rest)) = ingressTargetPort (as ++ rest) by
      simp [ingressTargetPort, ha]]
    exact ih (fun x hx => h x (List.mem_cons_of_mem a hx))

/-! ## Claim theorems -/

/-- C3 counterexample: the retry budgets do not differ by call site. The
resource-group and teardown call sites use the same budget as environment
creation, namely 600 seconds (10 minutes), not about 2 respectively about
5 minutes. -/
theorem retry_budget_not_per_site :
    retryBudget RetrySite.ensureResourceGroup = retryBudget RetrySite.ensureEnvironment
  ∧ retryBudget RetrySite.deleteResourceGroup = retryBudget RetrySite.ensureEnvironment
  ∧ retryBudget RetrySite.ensureResourceGroup = 600
  ∧ ¬ retryBudget RetrySite.ensureResourceGroup = 120
  ∧ ¬ retryBudget RetrySite.deleteResourceGroup = 300 := by
  decide

/-- C3 amended: every call site of the retry policy uses the same cumulative
backoff budget, the single constant maxRetryTime of 10 minutes (600 s). -/
theorem retry_budget_uniform (s : RetrySite) :
    retryBudget s = maxRetryTime ∧ maxRetryTime = 600 :=
  ⟨rfl, rfl⟩

/-- C4: an error is classified permanent exactly when its text carries one of
the four denylisted codes; a permanent error aborts the retry loop at once
with that error and no further attempts, while a non-permanent error within
the backoff budget leads to a further attempt. -/
theorem permanent_error_classification (m : String) (t budget : Nat)
    (rest : List (OpResult × Nat)) :
    (isPermanentError m = true ↔
      ∃ c ∈ permanentErrorCodes, containsSeq m.data c.data = true)
  ∧ (isPermanentError m = true →
      retryModel budget ((OpResult.fail m, t) :: rest) = some m)
  ∧ (isPermanentError m = false → t ≤ budget →
      retryModel budget ((OpResult.fail m, t) :: rest) = retryModel budget rest) := by
  refine ⟨?_, ?_, ?_⟩
  · simp [isPermanentError, List.any_eq_true]
  · intro h
    simp [retryModel, h]
  · intro h ht
    simp [retryModel, h, Nat.not_lt.mpr ht]

/-- C4 witness: an authorization failure is permanent and aborts the retry
loop immediately with the original error. -/
theorem permanent_error_classification_witness :
    retryModel 600
      [(OpResult.fail "AuthorizationFailed: no permission", 3),
       (OpResult.ok, 10)] = some "AuthorizationFailed: no permission" :=
  (permanent_error_classification "AuthorizationFailed: no permission" 3 600
    [(OpResult.ok, 10)]).2.1 (by decide)

/-- C8: the translated environment variables are sorted by key, and the
empty mapping translates to the empty sequence. -/
theorem env_vars_sorted_and_empty :
    buildEnvVars [] = []
  ∧ ∀ env : List (String × String),
      List.Sorted (fun a b => a ≤ b) ((buildEnvVars env).map EnvironmentVar.name) := by
  constructor
  · rfl
  · intro env
    by_cases h : env.length == 0
    · simp [buildEnvVars, h]
    · simp only [buildEnvVars, h, Bool.false_eq_true, if_false, List.map_map]
      have hmap : (EnvironmentVar.name ∘ fun k =>
          ({ name := k, value := (List.lookup k env).getD "" } : EnvironmentVar)) =
          fun k => k := rfl
      rw [hmap, List.map_id']
      exact List.sorted_insertionSort _ _

/-- C10: GetServiceNames returns the declared service names sorted
alphabetically (a permutation of the declared names), and consequently the
deployed container list produced by parseComposeServices carries its names
in that same sorted order. -/
theorem service_names_sorted_perm (p : Project) :
    List.Sorted (fun a b : String => a ≤ b) (GetServiceNames p)
  ∧ List.Perm (GetServiceNames p) (p.map Prod.fst)
  ∧ List.Sorted (fun a b : String => a ≤ b)
      ((parseComposeServices p).map (fun c => c.name)) := by
  refine ⟨List.sorted_insertionSort _ _, List.perm_insertionSort _ _, ?_⟩
  rw [parse_names_eq]
  exact List.Pairwise.filter _ (List.sorted_insertionSort _ _)

/-- C5: the single public ingress target port is the first declared port of
the first service, in original service order, whose port list is nonempty —
services without ports ahead of it are passed over. -/
theorem ingress_first_nonempty_service (config : DeployConfig) (envID : String)
    (pre post : List ContainerConfig) (c : ContainerConfig) (p : Nat) (ps : List Nat)
    (hsplit : config.containers = pre ++ c :: post)
    (hpre : ∀ x ∈ pre, x.ports = [])
    (hc : c.ports = p :: ps) :
    (buildContainerApp config envID).ingress =
      some { external := true, targetPort := p, transport := "Auto" } := by
  have hport : ingressTargetPort config.containers = p := by
    rw [hsplit, ingressTargetPort_append pre (c :: post) hpre]
    simp [ingressTargetPort, hc]
  simp [buildContainerApp, hport]

/-- C5 witness: with a first portless service and a second service exposing
port 3000, ingress targets 3000. -/
theorem ingress_first_nonempty_service_witness :
    (buildContainerApp
      { location := "eastus"
        containers :=
          [{ name := "api", image := "api:latest", ports := [] },
           { name := "web", image := "nginx:alpine", ports := [3000, 80] }] }
      "envid").ingress =
      some { external := true, targetPort := 3000, transport := "Auto" } :=
  ingress_first_nonempty_service _ "envid"
    [{ name := "api", image := "api:latest", ports := [] }] []
    { name := "web", image := "nginx:alpine", ports := [3000, 80] } 3000 [80]
    rfl (by intro x hx; rw [List.mem_singleton] at hx; rw [hx]) rfl

/-- C9: when no container declares any port the translator still emits an
external ingress and defaults its target port to 80. -/
theorem ingress_default_port (config : DeployConfig) (envID : String)
    (h : ∀ c ∈ config.containers, c.ports = []) :
    (buildContainerApp config envID).ingress =
      some { external := true, targetPort := 80, transport := "Auto" } := by
  have hport : ingressTargetPort config.containers = 80 := by
    have := ingressTargetPort_append config.containers [] h
    rw [List.append_nil] at this
    exact this
  simp [buildContainerApp, hport]

/-- C9 witness: a single portless container still gets an ingress at 80. -/
theorem ingress_default_port_witness :
    (buildContainerApp
      { location := "eastus"
        containers := [{ name := "worker", image := "worker:1", ports := [] }] }
      "envid").ingress =
      some { external := true, targetPort := 80, transport := "Auto" } :=
  ingress_default_port _ "envid"
    (by intro x hx; rw [List.mem_singleton] at hx; rw [hx])

/-- C7: sanitizeDNSLabel lowercases and sanitizes owner and repository into
the class [a-z0-9-], concatenates the fixed dd marker and pr<N>, trims
leading and trailing dashes, errors when the trimmed label is shorter than
3 characters, falls back to the deterministic short form dd-pr<N> when it
exceeds 63 characters, returns the trimmed label otherwise, and is
deterministic. -/
theorem dns_label_behaviour (owner repo : String) (n : Nat) :
    (∀ s : String, ∀ c ∈ (sanitizeDNSChars s).data, dnsAllowedChar c = true)
  ∧ (let label := trimDash ("dd-" ++ sanitizeDNSChars (asciiLower owner) ++ "-" ++
        sanitizeDNSChars (asciiLower repo) ++ "-pr" ++ toString n)
     (label.length < 3 →
        sanitizeDNSLabel owner repo n =
          Except.error ("DNS label too short: " ++ toString label.length ++ " chars (min 3)"))
   ∧ (3 ≤ label.length → label.length ≤ 63 →
        sanitizeDNSLabel owner repo n = Except.ok label)
   ∧ (3 ≤ label.length → 63 < label.length →
        sanitizeDNSLabel owner repo n = Except.ok ("dd-pr" ++ toString n)))
  ∧ sanitizeDNSLabel owner repo n = sanitizeDNSLabel owner repo n := by
  refine ⟨?_, ⟨?_, ?_, ?_⟩, rfl⟩
  · intro s c hc
    simp only [sanitizeDNSChars, List.mem_map] at hc
    obtain ⟨a, _, rfl⟩ := hc
    by_cases h : dnsAllowedChar a
    · simp [h]
    · simp only [h, Bool.false_eq_true, if_false]
      decide
  · intro hshort
    simp only [sanitizeDNSLabel]
    rw [if_pos hshort]
  · intro hge hle
    simp only [sanitizeDNSLabel]
    rw [if_neg (by omega), if_neg (by omega)]
  · intro hge hgt
    simp only [sanitizeDNSLabel]
    rw [if_neg (by omega), if_pos (by omega)]

/-- C7 witness: a concrete identity takes the normal branch and yields the
trimmed sanitized label. -/
theorem dns_label_behaviour_witness :
    sanitizeDNSLabel "LoriKarikari" "draftdeploy" 7 =
      Except.ok "dd-lorikarikari-draftdeploy-pr7" :=
  (dns_label_behaviour "LoriKarikari" "draftdeploy" 7).2.1.2.1
    (by decide) (by decide)

/-- C6: build-only services (empty image) are excluded from the deployed
container set, and when no deployable service remains the deploy run fails
fast with the no-deployable-services error before any cloud call — the
deployer is never invoked, so no resource group is created and no rollback
runs. -/
theorem no_deployable_fail_fast (ctx : Ctx) (p : Project)
    (credErr deployerErr cleanupErr : Option String) (deployOp : Ctx → DeployOutcome) :
    ((parseComposeServices p).map (fun c => c.name) =
      (GetServiceNames p).filter (fun n => GetServiceImage p n != ""))
  ∧ (parseComposeServices p = [] →
      deployModel ctx p credErr deployerErr deployOp cleanupErr =
        { result := some "no deployable services found (all have build configs)"
          deployerInvoked := false
          rollbackAttempted := false
          rollbackCtx := none
          logs := [] }) := by
  refine ⟨parse_names_eq p, ?_⟩
  intro h
  simp [deployModel, h]

/-- C6 witness: a project holding only a build-only service aborts with the
no-deployable-services error and never invokes the deployer. -/
theorem no_deployable_fail_fast_witness :
    deployModel Ctx.background [("api", { image := "", ports := [] })]
      none none (fun _ => DeployOutcome.ok "fqdn") none =
      { result := some "no deployable services found (all have build configs)"
        deployerInvoked := false
        rollbackAttempted := false
        rollbackCtx := none
        logs := [] } :=
  (no_deployable_fail_fast Ctx.background [("api", { image := "", ports := [] })]
    none none none (fun _ => DeployOutcome.ok "fqdn")).2 (by decide)

/-- C1: whenever deployer.Deploy fails (in particular after resource-group
creation has been attempted inside it), the deferred rollback deletes the
resource group under a fresh two-minute cleanup context independent of the
deploy context, a rollback failure is logged and never propagated, and the
error returned to the caller is the original deployment error for every
possible rollback outcome. -/
theorem deploy_rollback_best_effort (ctx : Ctx) (p : Project)
    (deployOp : Ctx → DeployOutcome) (cleanupErr : Option String) (e : String)
    (hsvc : parseComposeServices p ≠ [])
    (hfail : deployOp ctx = DeployOutcome.err e) :
    (deployModel ctx p none none deployOp cleanupErr).result =
        some ("failed to deploy: " ++ e)
  ∧ (deployModel ctx p none none deployOp cleanupErr).rollbackAttempted = true
  ∧ (deployModel ctx p none none deployOp cleanupErr).rollbackCtx =
        some { timeLeft := some cleanupTimeout }
  ∧ (∀ ce, cleanupErr = some ce →
        ("failed to cleanup resource group: " ++ ce) ∈
          (deployModel ctx p none none deployOp cleanupErr).logs) := by
  have h0 : ((parseComposeServices p).length == 0) = false := by
    simp [List.length_eq_zero, hsvc]
  refine ⟨?_, ?_, ?_, ?_⟩ <;>
    simp [deployModel, h0, hfail, Ctx.background, Ctx.withTimeout]
  intro ce hce
  simp [hce]

/-- C1 witness: a failing deploy over one deployable service returns the
original error even though the rollback itself fails. -/
theorem deploy_rollback_best_effort_witness :
    (deployModel (Ctx.background.withTimeout deployTimeout)
        [("web", { image := "nginx:alpine", ports := [{ published := "80", target := 80 }] })]
        none none (fun _ => DeployOutcome.err "boom") (some "cleanup denied")).result =
      some ("failed to deploy: " ++ "boom") :=
  (deploy_rollback_best_effort (Ctx.background.withTimeout deployTimeout)
    [("web", { image := "nginx:alpine", ports := [{ published := "80", target := 80 }] })]
    (fun _ => DeployOutcome.err "boom") (some "cleanup denied") "boom"
    (by decide) rfl).1

/-- C2 counterexample: on a run whose deployer call fails with the context
deadline exceeded error, the rollback path IS triggered, contradicting the
claim that exceeding the deadline never triggers resource-group deletion. -/
theorem timeout_triggers_rollback_cex :
    ¬ ((deployModel (Ctx.background.withTimeout deployTimeout)
          [("web", { image := "nginx:alpine", ports := [{ published := "80", target := 80 }] })]
          none none (fun _ => DeployOutcome.err "context deadline exceeded")
          none).rollbackAttempted = false) := by
  decide

/-- C2 amended: a run exceeding the overall deadline surfaces the timeout
error to the caller and, like every other deploy failure, triggers the
best-effort rollback, which runs under a fresh cleanup context unaffected
by the expired deadline. -/
theorem timeout_surfaces_error_and_rolls_back (ctx : Ctx) (p : Project)
    (deployOp : Ctx → DeployOutcome)
    (hsvc : parseComposeServices p ≠ [])
    (htimeout : deployOp ctx = DeployOutcome.err "context deadline exceeded") :
    (deployModel ctx p none none deployOp none).result =
      some "failed to deploy: context deadline exceeded"
  ∧ (deployModel ctx p none none deployOp none).rollbackAttempted = true
  ∧ (deployModel ctx p none none deployOp none).rollbackCtx =
      some { timeLeft := some cleanupTimeout } := by
  have h0 : ((parseComposeServices p).length == 0) = false := by
    simp [List.length_eq_zero, hsvc]
  refine ⟨?_, ?_, ?_⟩ <;>
    simp [deployModel, h0, htimeout, Ctx.background, Ctx.withTimeout]

/-- C2 amended witness: a timed-out run over one deployable service surfaces
the timeout error and rolls back. -/
theorem timeout_surfaces_error_and_rolls_back_witness :
    (deployModel (Ctx.background.withTimeout deployTimeout)
        [("db", { image := "postgres:15", ports := [{ published := "5432", target := 5432 }] })]
        none none (fun _ => DeployOutcome.err "context deadline exceeded")
        none).rollbackAttempted = true :=
  (timeout_surfaces_error_and_rolls_back (Ctx.background.withTimeout deployTimeout)
    [("db", { image := "postgres:15", ports := [{ published := "5432", target := 5432 }] })]
    (fun _ => DeployOutcome.err "context deadline exceeded")
    (by decide) rfl).2.1

end DraftDeploy
